import Mathlib

/-!
Shallow embedding of the company-vetting pipeline
(`src/utils/api_calls.py`, `src/utils/validators.py`,
`src/utils/langgraph_workflow.py`) and proofs about it.

Python strings are modelled as Lean `String`; character-level operations
(lowercasing, splitting, slicing, substring tests) go through `String.toList`.
External providers (the Tavily search client and the OpenAI completion
client) are modelled as explicit parameters: a search call is an
`Except String (List Result)` (an exception or a result list), a completion
call is an oracle `String → String → Except String String` from the
system/user messages to either a response or a raised provider error.
-/

namespace Vetting

/-- Python `s.lower()` (ASCII case folding, which is all that occurs here). -/
def toLowerStr (s : String) : String := (s.toList.map Char.toLower).asString

/-- Python `s.strip()`: remove leading and trailing whitespace. -/
def pyStrip (s : String) : String :=
  (((s.toList.dropWhile Char.isWhitespace).reverse.dropWhile
    Char.isWhitespace).reverse).asString

/-- Substring test on character lists: `needle` occurs contiguously in `hay`. -/
def pyInList (needle : List Char) : List Char → Bool
  | [] => needle.isEmpty
  | c :: rest => needle.isPrefixOf (c :: rest) || pyInList needle rest

/-- Python `needle in hay` substring test. -/
def pyIn (needle hay : String) : Bool := pyInList needle.toList hay.toList

/-- Python slicing `s[:n]`. -/
def strTake (s : String) (n : Nat) : String := (s.toList.take n).asString

/-- Helper for `splitWs`: accumulates the current word (reversed). -/
def splitWsAux : List Char → List Char → List (List Char)
  | [], acc => if acc.isEmpty then [] else [acc.reverse]
  | c :: rest, acc =>
    if c.isWhitespace then
      (if acc.isEmpty then [] else [acc.reverse]) ++ splitWsAux rest []
    else
      splitWsAux rest (c :: acc)

/-- Python `s.split()` with no argument: split on whitespace runs, dropping
empty pieces (so `"".split() == []`). -/
def splitWs (s : String) : List String :=
  (splitWsAux s.toList []).map List.asString

/-- Python `s.isdigit()`: non-empty and all characters are digits. -/
def pyIsDigit (s : String) : Bool :=
  !s.toList.isEmpty && s.toList.all Char.isDigit

/-- Python `s.islower()` on a character list: at least one cased character and
no cased character is uppercase (ASCII: cased = alphabetic). -/
def pyIsLowerList (cs : List Char) : Bool :=
  cs.any Char.isAlpha && cs.all (fun c => !c.isAlpha || c.isLower)

/-- Python `s.rstrip(".")`: drop trailing dots. -/
def rstripDot (s : String) : String :=
  ((s.toList.reverse.dropWhile (fun c => c = '.')).reverse).asString

/-- A regex word character `\w` (ASCII): letter, digit or underscore. -/
def isWordChar (c : Char) : Bool := c.isAlphanum || c = '_'

/-- Does token `t` occur in `s` at index `i` with `\b` boundaries on both
sides (`re.search(r"\b(t)\b", s)` semantics for a fixed alternative `t`)? -/
def tokenAt (s t : List Char) (i : Nat) : Bool :=
  decide ((s.drop i).take t.length = t)
    && (decide (i = 0) || !isWordChar (s.getD (i - 1) ' '))
    && (decide (s.length ≤ i + t.length) || !isWordChar (s.getD (i + t.length) ' '))

/-- `re.search(r"\b t \b", s) is not None` for a single literal token `t`. -/
def containsWordToken (s t : List Char) : Bool :=
  (List.range (s.length + 1)).any (tokenAt s t)

/-! ### Data model: search results

A Tavily search result is a dict with `title`, `content`, `url` keys
(read with `.get(key, '')`).  `Option SearchResult` models the dict itself:
`none` stands for a falsy dict (`{}` / `None`, for which every `.get`
defaults to `''` and `not result` is true). -/

structure SearchResult where
  title : String := ""
  content : String := ""
  url : String := ""
deriving DecidableEq

abbrev Result := Option SearchResult

/-- Python `result.get('title', '')`. -/
def getTitle (r : Result) : String := (r.map SearchResult.title).getD ""

/-- Python `result.get('content', '')`. -/
def getContent (r : Result) : String := (r.map SearchResult.content).getD ""

/-- Python `result.get('url', '')`. -/
def getUrl (r : Result) : String := (r.map SearchResult.url).getD ""

/-! ### RelevanceFilter (`api_calls.py` lines 395-441) -/

/-- `validate_result_relevance(result, company_name)` from `api_calls.py`:
lowercases title+content+url, splits the subject name on whitespace; a
single-word name must appear as a substring; otherwise the words of length
> 2 that appear are counted and compared against `len(words) * 0.5`
(`2 * matches ≥ len(words)` — the float arithmetic is exact for halves). -/
def validate_result_relevance (result : Result) (company_name : String) : Bool :=
  match result with
  | none => false
  | some r =>
    let title := toLowerStr r.title
    let content := toLowerStr r.content
    let url := toLowerStr r.url
    let full_text := title ++ " " ++ content ++ " " ++ url
    let company_lower := toLowerStr company_name
    let company_words := splitWs company_lower
    if company_words.length = 1 then
      pyIn company_lower full_text
    else
      let matchCount := (company_words.filter
        (fun word => decide (2 < word.length) && pyIn word full_text)).length
      decide (company_words.length ≤ 2 * matchCount)

/-- `filter_irrelevant_results(results, company_name)`: the loop appends, in
order, exactly those results passing `validate_result_relevance`. -/
def filter_irrelevant_results (results : List Result) (company_name : String) :
    List Result :=
  results.filter (fun r => validate_result_relevance r company_name)

/-! ### InputValidator: name-shape check (`validators.py` lines 12-108) -/

/-- The title alternatives of `PERSONAL_NAME_PATTERNS[0]`,
`r"\b(mr|mrs|ms|miss|dr|prof)\b"`. -/
def personalTitleTokens : List String := ["mr", "mrs", "ms", "miss", "dr", "prof"]

/-- `PERSONAL_NAME_PATTERNS[0]` searched with `re.IGNORECASE`: some title
token occurs in the lowercased name with word boundaries on both sides. -/
def matchesTitlePattern (s : String) : Bool :=
  personalTitleTokens.any
    (fun t => containsWordToken (toLowerStr s).toList t.toList)

/-- `PERSONAL_NAME_PATTERNS[1]`, `r"^[A-Z][a-z]+\s+[A-Z][a-z]+$"`, searched
with `re.IGNORECASE`.  Under IGNORECASE both character classes collapse to
"ASCII letter", so the regex matches exactly: a letter run of length ≥ 2,
a whitespace run of length ≥ 1, a letter run of length ≥ 2, end.  The runs
are maximal because the classes are disjoint, so the decomposition below is
the unique candidate. -/
def matchesTwoWordPattern (s : String) : Bool :=
  let cs := s.toList
  let w1 := cs.takeWhile Char.isAlpha
  let r1 := cs.dropWhile Char.isAlpha
  let ws := r1.takeWhile Char.isWhitespace
  let w2 := r1.dropWhile Char.isWhitespace
  decide (2 ≤ w1.length) && decide (1 ≤ ws.length) &&
    decide (2 ≤ w2.length) && w2.all Char.isAlpha

/-- `PERSONAL_NAME_PATTERNS[2]`, `r"^[A-Z][a-z]+\s+[A-Z]\.\s*[A-Z][a-z]+$"`,
searched with `re.IGNORECASE` (letter run ≥ 2, whitespace, single letter,
a dot, optional whitespace, letter run ≥ 2). -/
def matchesInitialPattern (s : String) : Bool :=
  let cs := s.toList
  let w1 := cs.takeWhile Char.isAlpha
  let r1 := cs.dropWhile Char.isAlpha
  let ws := r1.takeWhile Char.isWhitespace
  let r2 := r1.dropWhile Char.isWhitespace
  match r2 with
  | m :: d :: r3 =>
    let w2 := r3.dropWhile Char.isWhitespace
    decide (2 ≤ w1.length) && decide (1 ≤ ws.length) && m.isAlpha &&
      decide (d = '.') && decide (r3.takeWhile Char.isWhitespace ++ w2 = r3) &&
      decide (2 ≤ w2.length) && w2.all Char.isAlpha
  | _ => false

/-- The loop `for pattern in PERSONAL_NAME_PATTERNS: if re.search(pattern,
name_clean, re.IGNORECASE)` — any of the three patterns matches. -/
def matchesPersonalNamePattern (s : String) : Bool :=
  matchesTitlePattern s || matchesTwoWordPattern s || matchesInitialPattern s

/-- `COMPANY_SUFFIXES` from `validators.py`. -/
def COMPANY_SUFFIXES : List String :=
  ["inc", "incorporated", "corp", "corporation", "llc", "ltd", "limited",
   "co", "company", "group", "holdings", "enterprises", "industries",
   "solutions", "systems", "technologies", "tech", "international",
   "global", "services", "partners", "capital", "ventures"]

/-- The characters of `r"[<>{}|\\\^~\[\]`]"` (codes used for the characters
the token scanner dislikes as literals). -/
def invalidNameChars : List Char :=
  ['<', '>', Char.ofNat 123, Char.ofNat 125, '|', '\\', '^', '~',
   Char.ofNat 91, Char.ofNat 93, Char.ofNat 96]

/-- Python `word[0].isupper() and word[1:].islower()` for a word produced by
`split()` (hence non-empty). -/
def pyTitleCaseWord (w : String) : Bool :=
  match w.toList with
  | [] => false
  | c :: rest => c.isUpper && pyIsLowerList rest

/-- `validate_company_name(name)` from `validators.py`, returning
`(is_valid, error_type)`.  The human-readable message (third component in
the source) is pure presentation text and is omitted. -/
def validate_company_name (name : String) : Bool × String :=
  if name = "" || (pyStrip name).length < 2 then (false, "empty")
  else
    let name_clean := pyStrip name
    if name_clean.length < 2 then (false, "too_short")
    else if pyIsDigit name_clean then (false, "numbers_only")
    else if name_clean.toList.any (fun c => invalidNameChars.contains c) then
      (false, "invalid_chars")
    else if matchesPersonalNamePattern name_clean then (false, "personal_name")
    else
      let words := splitWs name_clean
      if decide (words.length = 2) && words.all pyTitleCaseWord then
        let last_word_lower := rstripDot (toLowerStr (words.getLastD ""))
        if COMPANY_SUFFIXES.any (fun suffix => pyIn suffix last_word_lower) then
          (true, "")
        else (false, "possible_personal_name")
      else (true, "")

/-! ### Executive background checks (`api_calls.py` lines 70-336)

A search call is an `Except String (List Result)`: `.error e` models the
provider raising, `.ok rs` a result list.  A classification completion call
is an oracle from the user prompt to `Except String String`. -/

abbrev SearchOutcome := Except String (List Result)

abbrev ClsOracle := String → Except String String

structure Classified where
  positive : List Result := []
  neutral : List Result := []
  negative : List Result := []
deriving DecidableEq

/-- The `classification_prompt` f-string of `classify_executive_information`. -/
def classification_prompt (executive_name title content : String) : String :=
  "Analyze this information about " ++ executive_name ++ ":\n\nTitle: " ++
  title ++ "\nContent: " ++ content ++
  "\n\nClassify as:\n- POSITIVE: Awards, achievements, positive leadership, good reviews, charity work\n- NEGATIVE: Scandals, crimes, lawsuits, misconduct, fraud, violations, controversies\n- NEUTRAL: General information, job announcements, neutral facts\n\nAlso verify: Is this actually about " ++
  executive_name ++
  " (the person)?\n\nRespond ONLY with:\nCLASSIFICATION: [POSITIVE/NEGATIVE/NEUTRAL]\nABOUT_PERSON: [YES/NO]\nREASON: [one sentence why]"

/-- How one parsed completion response updates the classified dict: the
response is parsed by substring tests (`"ABOUT_PERSON: YES" in result`,
then the CLASSIFICATION markers); a finding flagged not-about-the-person is
skipped (added to no category). -/
def classifyStep (acc : Classified) (f : Result) (result : String) : Classified :=
  if !pyIn "ABOUT_PERSON: YES" result then acc
  else if pyIn "CLASSIFICATION: POSITIVE" result then
    { acc with positive := acc.positive ++ [f] }
  else if pyIn "CLASSIFICATION: NEGATIVE" result then
    { acc with negative := acc.negative ++ [f] }
  else
    { acc with neutral := acc.neutral ++ [f] }

/-- The `for finding in findings[:10]` loop of
`classify_executive_information`: empty-title-and-content findings are
skipped, each response updates the dict via `classifyStep`, and the first
provider error aborts the whole loop (the source `try` wraps the entire
loop). -/
def classifyLoop (oracle : ClsOracle) (executive_name : String) :
    List Result → Classified → Except String Classified
  | [], acc => .ok acc
  | f :: rest, acc =>
    if getTitle f = "" && strTake (getContent f) 300 = "" then
      classifyLoop oracle executive_name rest acc
    else
      match oracle (classification_prompt executive_name (getTitle f)
          (strTake (getContent f) 300)) with
      | .error e => .error e
      | .ok result => classifyLoop oracle executive_name rest (classifyStep acc f result)

/-- `classify_executive_information(executive_name, findings)`: empty result
when the completion credential is missing or there are no findings; on a
provider error every finding is bucketed as NEUTRAL. -/
def classify_executive_information (openaiKey : Bool) (oracle : ClsOracle)
    (executive_name : String) (findings : List Result) : Classified :=
  if !openaiKey || findings.isEmpty then {}
  else
    match classifyLoop oracle executive_name (findings.take 10) {} with
    | .ok classified => classified
    | .error _ => { neutral := findings }

structure ExecSummary where
  total_findings : Nat := 0
  positive_count : Nat := 0
  negative_count : Nat := 0
  neutral_count : Nat := 0
deriving DecidableEq

structure ExecData where
  name : String
  all_findings : List Result := []
  positive : List Result := []
  negative : List Result := []
  neutral : List Result := []
  summary : ExecSummary := {}
deriving DecidableEq

/-- The initial `exec_data` dict of `search_executive_background`, returned
unchanged when one of the three searches raises. -/
def initialExecData (executive_name : String) : ExecData :=
  { name := executive_name }

/-- `search_executive_background(executive_name, company_name)`: three
searches (biography, scandal, legal), concatenated, relevance-filtered
against the executive's name, then classified.  The searches run in order,
and the outer `except` returns the initial `exec_data` if any raises
(`classify_executive_information` catches its own errors, so nothing after
the searches can raise). -/
def search_executive_background (openaiKey : Bool) (oracle : ClsOracle)
    (executive_name company_name : String)
    (generalS scandalS legalS : SearchOutcome) : ExecData :=
  match generalS, scandalS, legalS with
  | .ok general_results, .ok scandal_results, .ok legal_results =>
    let all_findings := general_results ++ scandal_results ++ legal_results
    let relevant_findings := filter_irrelevant_results all_findings executive_name
    let classified :=
      classify_executive_information openaiKey oracle executive_name relevant_findings
    { name := executive_name
      all_findings := relevant_findings
      positive := classified.positive
      negative := classified.negative
      neutral := classified.neutral
      summary :=
        { total_findings := relevant_findings.length
          positive_count := classified.positive.length
          negative_count := classified.negative.length
          neutral_count := classified.neutral.length } }
  | _, _, _ => initialExecData executive_name

/-- `extract_executive_names_from_results(company_name, search_results)`.
The completion call together with its strict-JSON-array parsing (markdown
fence stripping + `json.loads`) is abstracted into `parsedNames`: `.ok ns`
models a response that parses to the list `ns`, `.error` models a provider
error or a parse failure, either of which the source turns into `[]`. -/
def extract_executive_names_from_results (openaiKey : Bool)
    (search_results : List Result) (parsedNames : Except String (List String)) :
    List String :=
  if !openaiKey || search_results.isEmpty then []
  else
    match parsedNames with
    | .ok executive_names => executive_names
    | .error _ => []

structure ExecutivesData where
  leadership_overview : List Result := []
  executives_investigated : List (String × ExecData) := []
  total_executives : Nat := 0
  negative_findings_count : Nat := 0
deriving DecidableEq

/-- `search_executives(company_name)` on the no-names-provided path taken by
`aggregate_all_data`: a leadership search (whose raising aborts to the
initial dict), relevance filtering, executive-name extraction, then a
background check for the first 5 names.  `execSearches` supplies each
executive's three search outcomes. -/
def search_executives (openaiKey : Bool) (oracle : ClsOracle)
    (company_name : String) (leadership : SearchOutcome)
    (parsedNames : Except String (List String))
    (execSearches : String → SearchOutcome × SearchOutcome × SearchOutcome) :
    ExecutivesData :=
  match leadership with
  | .error _ => {}
  | .ok leadership_results =>
    let leadership_overview :=
      filter_irrelevant_results leadership_results company_name
    let executive_names :=
      extract_executive_names_from_results openaiKey leadership_overview parsedNames
    if executive_names.isEmpty then { leadership_overview }
    else
      let investigated := (executive_names.take 5).map (fun exec_name =>
        let s := execSearches exec_name
        (exec_name,
         search_executive_background openaiKey oracle exec_name company_name
           s.1 s.2.1 s.2.2))
      { leadership_overview
        executives_investigated := investigated
        total_executives := executive_names.length
        negative_findings_count :=
          (investigated.map (fun p => p.2.summary.negative_count)).sum }

/-! ### Data aggregation (`api_calls.py` lines 13-68, 338-512) -/

structure Comprehensive where
  general_search : List Result := []
  news_search : List Result := []
  legal_regulatory : List Result := []
  social_media : List Result := []
deriving DecidableEq

/-- `search_company_comprehensive(company_name)`: four sequential searches;
the first provider error aborts the `try`, returning the partially filled
`results` dict (the `company_info` key stays `{}` throughout and is
omitted). -/
def search_company_comprehensive (g n l s : SearchOutcome) : Comprehensive :=
  match g with
  | .error _ => {}
  | .ok general_results =>
    match n with
    | .error _ => { general_search := general_results }
    | .ok news_results =>
      match l with
      | .error _ =>
        { general_search := general_results, news_search := news_results }
      | .ok legal_results =>
        match s with
        | .error _ =>
          { general_search := general_results, news_search := news_results,
            legal_regulatory := legal_results }
        | .ok social_results =>
          { general_search := general_results, news_search := news_results,
            legal_regulatory := legal_results, social_media := social_results }

/-- `get_recent_news(company_name)`: a provider error degrades to `[]`. -/
def get_recent_news (r : SearchOutcome) : List Result :=
  match r with
  | .ok results => results
  | .error _ => []

structure SocialData where
  twitter : List Result := []
  linkedin : List Result := []
  facebook : List Result := []
  reddit : List Result := []
  general : List Result := []
deriving DecidableEq

/-- `search_social_media_specific(company_name)`: three sequential searches
(twitter, linkedin, reddit); the `facebook` and `general` keys are never
assigned.  The first provider error returns the partially filled dict. -/
def search_social_media_specific (tw li rd : SearchOutcome) : SocialData :=
  match tw with
  | .error _ => {}
  | .ok twitter_results =>
    match li with
    | .error _ => { twitter := twitter_results }
    | .ok linkedin_results =>
      match rd with
      | .error _ => { twitter := twitter_results, linkedin := linkedin_results }
      | .ok reddit_results =>
        { twitter := twitter_results, linkedin := linkedin_results,
          reddit := reddit_results }

structure RawData where
  company_name : String
  comprehensive_search : Comprehensive := {}
  recent_news : List Result := []
  social_media : SocialData := {}
  executives : ExecutivesData := {}
  data_found : Bool := false
  total_results : Nat := 0
  relevant_results : Nat := 0
deriving DecidableEq

/-- All search outcomes one `aggregate_all_data` run consumes. -/
structure TavilyOutcomes where
  general : SearchOutcome := .ok []
  news : SearchOutcome := .ok []
  legal : SearchOutcome := .ok []
  social : SearchOutcome := .ok []
  recent : SearchOutcome := .ok []
  twitter : SearchOutcome := .ok []
  linkedin : SearchOutcome := .ok []
  reddit : SearchOutcome := .ok []
  leadership : SearchOutcome := .ok []
  execSearches : String → SearchOutcome × SearchOutcome × SearchOutcome :=
    fun _ => (.ok [], .ok [], .ok [])

/-- `aggregate_all_data(company_name)`: raises when the search credential is
missing; otherwise runs the four collectors, relevance-filters the three
comprehensive buckets (`comprehensive["social_media"]` is *not* filtered),
the recent news, and every platform bucket of the specific social dict, and
computes `total_results` as the sum of exactly those filtered lists. -/
def aggregate_all_data (tavilyKey openaiKey : Bool) (t : TavilyOutcomes)
    (parsedNames : Except String (List String)) (oracle : ClsOracle)
    (company_name : String) : Except String RawData :=
  if !tavilyKey then .error "TAVILY_API_KEY not found in environment variables"
  else
    let comprehensive0 := search_company_comprehensive t.general t.news t.legal t.social
    let recent0 := get_recent_news t.recent
    let social0 := search_social_media_specific t.twitter t.linkedin t.reddit
    let execs := search_executives openaiKey oracle company_name t.leadership
      parsedNames t.execSearches
    let comprehensive :=
      { comprehensive0 with
        general_search :=
          filter_irrelevant_results comprehensive0.general_search company_name
        news_search :=
          filter_irrelevant_results comprehensive0.news_search company_name
        legal_regulatory :=
          filter_irrelevant_results comprehensive0.legal_regulatory company_name }
    let recent := filter_irrelevant_results recent0 company_name
    let social : SocialData :=
      { twitter := filter_irrelevant_results social0.twitter company_name
        linkedin := filter_irrelevant_results social0.linkedin company_name
        facebook := filter_irrelevant_results social0.facebook company_name
        reddit := filter_irrelevant_results social0.reddit company_name
        general := filter_irrelevant_results social0.general company_name }
    let total_results :=
      comprehensive.general_search.length + comprehensive.news_search.length +
      comprehensive.legal_regulatory.length + recent.length +
      (social.twitter.length + social.linkedin.length + social.facebook.length +
       social.reddit.length + social.general.length)
    .ok
      { company_name
        comprehensive_search := comprehensive
        recent_news := recent
        social_media := social
        executives := execs
        data_found := decide (0 < total_results)
        total_results
        relevant_results := total_results }

/-! ### The vetting workflow (`langgraph_workflow.py`)

A completion oracle maps the (system message, user message) pair to either
the response text or a raised provider error.  Prompt templates reproduce
the source f-string text; the incidental leading indentation of the Python
triple-quoted literals is not material to any theorem and is reproduced
loosely. -/

abbrev Oracle := String → String → Except String String

/-- `call_gpt4(system_message, user_message)` (lines 12-26): the provider
call is wrapped in `try/except`, and a raised provider error is returned as
the *string* `"Error: <e>"` — this helper never raises. -/
def call_gpt4 (oracle : Oracle) (system_message user_message : String) : String :=
  match oracle system_message user_message with
  | .ok response => response
  | .error e => "Error: " ++ e

structure EntitiesField where
  raw_analysis : Option String := none
  data_points : Option Nat := none
  processed : Option Bool := none
  error : Option String := none
  note : Option String := none
deriving DecidableEq

structure RiskField where
  analysis : Option String := none
  negative_items_found : Option Nat := none
  processed : Option Bool := none
  error : Option String := none
deriving DecidableEq

structure QuestionsField where
  answers : Option String := none
  processed : Option Bool := none
  error : Option String := none
deriving DecidableEq

structure ReportField where
  executive_summary : Option String := none
  company_name : Option String := none
  data_sources_checked : Option Nat := none
  processed : Option Bool := none
  error : Option String := none
deriving DecidableEq

/-- The `VettingState` TypedDict.  Each stage dict is modelled with one
`Option` field per key it can carry (`none` = key absent, as in the empty
dicts of the initial state). -/
structure VettingState where
  company_name : String
  raw_data : RawData
  extracted_entities : EntitiesField := {}
  risk_analysis : RiskField := {}
  pg_questions_answered : QuestionsField := {}
  final_report : ReportField := {}
  current_step : String := "initialized"
deriving DecidableEq

/-- The `data_summary` f-string of `extract_entities_node`. -/
def entities_data_summary (state : VettingState) : String :=
  let raw := state.raw_data
  let socialTotal := raw.social_media.twitter.length +
    raw.social_media.linkedin.length + raw.social_media.facebook.length +
    raw.social_media.reddit.length + raw.social_media.general.length
  "Company: " ++ state.company_name ++
  "\n\nGeneral Search Results: " ++
  toString raw.comprehensive_search.general_search.length ++
  " results\nNews Articles: " ++
  toString raw.comprehensive_search.news_search.length ++
  " articles\nLegal/Regulatory Info: " ++
  toString raw.comprehensive_search.legal_regulatory.length ++
  " items\nRecent News: " ++ toString raw.recent_news.length ++
  " recent articles\nSocial Media: " ++ toString socialTotal ++ " mentions\n"

/-- The `all_content` list of `extract_entities_node`: up to 5 formatted
general results followed by up to 5 formatted news results. -/
def entities_all_content (state : VettingState) : List String :=
  (state.raw_data.comprehensive_search.general_search.take 5).map
    (fun r => "Title: " ++ getTitle r ++ "\nContent: " ++ getContent r) ++
  (state.raw_data.comprehensive_search.news_search.take 5).map
    (fun r => "News: " ++ getTitle r ++ "\nContent: " ++ getContent r)

/-- The `extraction_prompt` f-string of `extract_entities_node`. -/
def extraction_prompt (state : VettingState) : String :=
  "Analyze the following information about " ++ state.company_name ++
  " and extract:\n\n1. Key executives and their roles\n2. Any incidents, scandals, or controversies mentioned\n3. Legal or regulatory issues\n4. Timeframes for any negative events\n5. Overall reputation indicators\n\nData Summary:\n" ++
  entities_data_summary state ++ "\n\nSample Content:\n" ++
  String.intercalate "\n\n---\n\n" ((entities_all_content state).take 10) ++
  "\n\nProvide a structured JSON response with these categories.\n"

/-- `extract_entities_node(state)` (lines 49-112).  The node's `except`
branch is unreachable because `call_gpt4` catches provider errors
internally and returns them as text, so the node always stores
`processed=True` and advances `current_step`. -/
def extract_entities_node (oracle : Oracle) (state : VettingState) : VettingState :=
  let response := call_gpt4 oracle
    "You are an expert at entity extraction and corporate intelligence analysis."
    (extraction_prompt state)
  { state with
    extracted_entities :=
      { raw_analysis := some response
        data_points := some (entities_all_content state).length
        processed := some true }
    current_step := "entities_extracted" }

/-- The fixed keyword set of `analyze_risks_node`. -/
def riskKeywords : List String :=
  ["scandal", "lawsuit", "fraud", "violation", "controversy", "investigation"]

/-- The admission test for a news item: some keyword occurs in the
lowercased *content* (the title is not examined). -/
def newsIsNegative (item : Result) : Bool :=
  riskKeywords.any (fun keyword => pyIn keyword (toLowerStr (getContent item)))

/-- The digest entry built for an admitted news item. -/
def newsNegEntry (item : Result) : String :=
  "NEWS: " ++ getTitle item ++ " - " ++ strTake (getContent item) 200

/-- The digest entry built for a legal/regulatory item. -/
def legalNegEntry (item : Result) : String :=
  "LEGAL: " ++ getTitle item ++ " - " ++ strTake (getContent item) 200

/-- The `negative_content` list of `analyze_risks_node` (lines 122-134):
news results are admitted iff their content matches a risk keyword, then
*every* legal/regulatory result is appended unconditionally. -/
def negativeContent (raw : RawData) : List String :=
  (raw.comprehensive_search.news_search.filter newsIsNegative).map newsNegEntry ++
  raw.comprehensive_search.legal_regulatory.map legalNegEntry

/-- The `negative_text` digest: only the first 15 entries are joined. -/
def riskNegativeText (raw : RawData) : String :=
  String.intercalate "\n\n" ((negativeContent raw).take 15)

/-- The `risk_analysis_prompt` f-string of `analyze_risks_node`. -/
def risk_analysis_prompt (state : VettingState) : String :=
  let negative_text := riskNegativeText state.raw_data
  "You are a corporate risk assessment expert for P&G brand safety compliance.\n\nAnalyze the following information about " ++
  state.company_name ++
  " and assess:\n\n1. SEVERITY: How serious are any negative findings? (Critical/High/Medium/Low/None)\n2. RECENCY: Are issues current (last 12 months) or historical?\n3. CREDIBILITY: Are sources credible and verified?\n4. PATTERN: Is there a pattern of misconduct or isolated incidents?\n5. IMPACT: Could this cause a PR \x22black eye\x22 for P&G?\n\nNegative Indicators Found:\n" ++
  (if negative_text = "" then "No significant negative indicators found"
   else negative_text) ++
  "\n\nProvide a detailed risk assessment with specific evidence and reasoning.\n"

/-- `analyze_risks_node(state)` (lines 114-170).  As with every stage, the
`except` branch is unreachable: `call_gpt4` returns a provider error as the
string `"Error: <e>"`, so the node stores that text with `processed=True`,
sets `negative_items_found` to the *uncapped* `len(negative_content)`, and
advances `current_step` to `"risks_analyzed"`. -/
def analyze_risks_node (oracle : Oracle) (state : VettingState) : VettingState :=
  let response := call_gpt4 oracle
    "You are an expert corporate risk analyst specializing in brand safety and reputation management."
    (risk_analysis_prompt state)
  { state with
    risk_analysis :=
      { analysis := some response
        negative_items_found := some (negativeContent state.raw_data).length
        processed := some true }
    current_step := "risks_analyzed" }

/-- Line 178: `state["risk_analysis"].get("analysis", "No analysis
available")` — the risk narrative the question-answering stage embeds in
its prompt. -/
def questions_risk_context (state : VettingState) : String :=
  state.risk_analysis.analysis.getD "No analysis available"

/-- The `questions_prompt` f-string of `answer_pg_questions_node`. -/
def questions_prompt (state : VettingState) : String :=
  "Based on your risk analysis of " ++ state.company_name ++
  ", answer these P&G brand safety questions.\n\nFor EACH question, provide:\n- Answer: YES / NO / MAYBE\n- Confidence: High / Medium / Low\n- Reasoning: 2-3 sentence explanation with specific evidence\n\nRisk Analysis Summary:\n" ++
  questions_risk_context state ++
  "\n\nQuestions:\n1. Does the company have a positive corporate reputation?\n2. Is the company free from current and serious public scandals?\n3. Is the company free from current and serious regulatory violations?\n4. Is the company free from current and serious legal violations?\n5. Are the company\x27s principals/executives free from serious misconduct?\n6. Is there no negative media event likely to cause a PR \x27black eye\x27?\n7. Does the company comply with brand safety standards?\n\nProvide structured answers in JSON format.\n"

/-- `answer_pg_questions_node(state)` (lines 172-218): same unreachable
`except`; stores the response with `processed=True` and advances to
`"questions_answered"`. -/
def answer_pg_questions_node (oracle : Oracle) (state : VettingState) : VettingState :=
  let response := call_gpt4 oracle
    "You are a P&G brand safety compliance officer making critical vetting decisions."
    (questions_prompt state)
  { state with
    pg_questions_answered := { answers := some response, processed := some true }
    current_step := "questions_answered" }

/-- The `report_prompt` f-string of `generate_report_node` (prior stage
outputs truncated to 500 characters, `"N/A"` when absent). -/
def report_prompt (state : VettingState) : String :=
  "Create a comprehensive executive summary for " ++ state.company_name ++
  " vetting report.\n\nInclude:\n1. Overall Recommendation (APPROVED / REJECTED / REQUIRES REVIEW)\n2. Key Findings (3-5 bullet points)\n3. Risk Level (Low / Medium / High / Critical)\n4. Action Items (if any)\n\nBased on:\n- Risk Analysis: " ++
  strTake (state.risk_analysis.analysis.getD "N/A") 500 ++
  "\n- P&G Questions: " ++
  strTake (state.pg_questions_answered.answers.getD "N/A") 500 ++
  "\n\nBe concise, professional, and actionable.\n"

/-- `generate_report_node(state)` (lines 220-263): stores the executive
summary with `data_sources_checked = len(general) + len(news) +
len(recent_news)` and advances to `"report_generated"`. -/
def generate_report_node (oracle : Oracle) (state : VettingState) : VettingState :=
  let response := call_gpt4 oracle
    "You are a senior compliance officer creating executive-level reports."
    (report_prompt state)
  { state with
    final_report :=
      { executive_summary := some response
        company_name := some state.company_name
        data_sources_checked := some
          (state.raw_data.comprehensive_search.general_search.length +
           state.raw_data.comprehensive_search.news_search.length +
           state.raw_data.recent_news.length)
        processed := some true }
    current_step := "report_generated" }

/-- The limited report returned by `run_vetting_analysis` (lines 305-335)
when the short-circuit `not data_found or total_results < 3` fires. -/
def insufficientState (company_name : String) (raw_data : RawData) : VettingState :=
  let total_results := raw_data.total_results
  { company_name
    raw_data
    extracted_entities := { note := some "Insufficient data for entity extraction" }
    risk_analysis :=
      { analysis := some ("**INSUFFICIENT DATA WARNING**: Only " ++
          toString total_results ++ " data points found for \x27" ++
          company_name ++
          "\x27. This company may not exist, may be too small/private, or the name may be incorrect. **Recommendation**: REQUIRES MANUAL REVIEW - Verify company existence and spelling before proceeding.")
        negative_items_found := some 0
        processed := some true }
    pg_questions_answered :=
      { answers := some "**INSUFFICIENT DATA**: Unable to answer P&G questions due to lack of information. Manual vetting required."
        processed := some false }
    final_report :=
      { executive_summary := some ("## ⚠️ INSUFFICIENT DATA FOR: " ++
          company_name ++
          "\n\n**Status**: REQUIRES MANUAL REVIEW\n\n**Reason**: Only " ++
          toString total_results ++
          " data points found during search.\n\n**Possible Causes**:\n- Company name misspelled or incorrect\n- Company does not exist or is not publicly known\n- Company is too small/private for public data\n- Company operates under a different legal name\n\n**Recommended Action**: Verify company information manually before proceeding with vetting.")
        company_name := some company_name
        data_sources_checked := some total_results
        processed := some true }
    current_step := "insufficient_data" }

/-- The error-state report built in the `except` branch of
`run_vetting_analysis` (lines 357-368). -/
def workflowErrorReport (company_name e : String) : ReportField :=
  { executive_summary := some ("## ❌ ERROR DURING ANALYSIS\n\n**Error**: " ++
      e ++ "\n\n**Recommendation**: Check API keys and try again.")
    company_name := some company_name
    data_sources_checked := some 0
    processed := some false
    error := some e }

/-- `run_vetting_analysis(company_name, raw_data)` (lines 286-368).
`openaiKey` models whether `OPENAI_API_KEY` is configured: when missing the
function *raises* `ValueError` (modelled as `.error`).  `orchestration`
models whether `workflow.invoke` itself raises inside the LangGraph runtime
(`some e` = an infrastructure failure with message `e`); when it is `none`,
`invoke` runs the four nodes in the fixed edge order
extract_entities → analyze_risks → answer_questions → generate_report.
The stage nodes themselves never raise (`call_gpt4` catches provider
errors), so only an orchestration failure reaches the `except` branch,
which stamps the *initial* state with an error report and
`current_step = "error"`. -/
def run_vetting_analysis (openaiKey : Bool) (orchestration : Option String)
    (oracle : Oracle) (company_name : String) (raw_data : RawData) :
    Except String VettingState :=
  if !openaiKey then
    .error "OPENAI_API_KEY not found in environment variables"
  else
    let total_results := raw_data.total_results
    let data_found := raw_data.data_found
    if !data_found || total_results < 3 then
      .ok (insufficientState company_name raw_data)
    else
      let initial_state : VettingState := { company_name, raw_data }
      match orchestration with
      | some e =>
        .ok { initial_state with
              final_report := workflowErrorReport company_name e
              current_step := "error" }
      | none =>
        .ok (generate_report_node oracle (answer_pg_questions_node oracle
          (analyze_risks_node oracle (extract_entities_node oracle initial_state))))

/-! ### Derived measures referenced by the claims -/

/-- The sum the source actually computes into `total_results`
(`api_calls.py` lines 494-500): the five relevance-filtered bucket lists. -/
def countedBuckets (r : RawData) : Nat :=
  r.comprehensive_search.general_search.length +
  r.comprehensive_search.news_search.length +
  r.comprehensive_search.legal_regulatory.length +
  r.recent_news.length +
  (r.social_media.twitter.length + r.social_media.linkedin.length +
   r.social_media.facebook.length + r.social_media.reddit.length +
   r.social_media.general.length)

/-- The measure the invariant claim asserts `total_result_count` to equal,
following the RawIntelligence data model of the specification: the sum of
the lengths of all result lists the bundle contains, i.e. the five searched
buckets plus every executive dossier's positive/negative/neutral lists. -/
def allContainedResultCount (r : RawData) : Nat :=
  countedBuckets r +
  (r.executives.executives_investigated.map
    (fun p => p.2.positive.length + p.2.negative.length + p.2.neutral.length)).sum

/-! ### Concrete fixtures used by counterexamples and witnesses -/

/-- A completion oracle that always succeeds. -/
def oracleOk : Oracle := fun _ _ => .ok "All clear."

/-- A completion oracle whose provider always raises. -/
def oracleFail : Oracle := fun _ _ => .error "boom"

/-- A classification oracle that flags every finding as not about the
named person. -/
def clsNotPerson : ClsOracle := fun _ =>
  .ok "CLASSIFICATION: NEUTRAL\nABOUT_PERSON: NO\nREASON: This is about a different person."

/-- A classification oracle that classifies every finding as a positive
item about the named person. -/
def clsYesPositive : ClsOracle := fun _ =>
  .ok "CLASSIFICATION: POSITIVE\nABOUT_PERSON: YES\nREASON: Award coverage about the person."

/-- A raw bundle with exactly two aggregated results. -/
def rdTwo : RawData :=
  { company_name := "zeta", data_found := true, total_results := 2 }

/-- A raw bundle with five aggregated results (enough to enter the pipeline). -/
def rdFive : RawData :=
  { company_name := "zeta", data_found := true, total_results := 5 }

/-- A pipeline state about to enter the risk-analysis stage. -/
def stateC1 : VettingState :=
  { company_name := "zeta", raw_data := rdFive, current_step := "entities_extracted" }

/-- A legal/regulatory result whose content matches none of the risk
keywords. -/
def legalItemC7 : SearchResult :=
  { title := "Annual report", content := "routine compliance filing" }

/-- A raw bundle whose only result is the keyword-free legal item. -/
def rdLegalC7 : RawData :=
  { company_name := "zeta"
    comprehensive_search := { legal_regulatory := [some legalItemC7] }
    data_found := true, total_results := 3 }

/-- A finding clearly mentioning the executive `xavier`. -/
def findingC5 : SearchResult :=
  { title := "xavier profile", content := "biography of xavier" }

/-- A nonempty relevant result, used against the empty subject name. -/
def resultC6 : SearchResult := { title := "Tesla unveils new model" }

/-- Provider outcomes for an aggregation run in which every counted search
is empty but the executive-discovery chain produces one classified
finding. -/
def tavC8 : TavilyOutcomes :=
  { leadership := .ok [some { title := "zeta leadership", content := "zeta ceo xavier" }]
    execSearches := fun _ =>
      (.ok [some { title := "xavier wins award", content := "xavier achievement" }],
       .ok [], .ok []) }

/-! ### Helper lemmas -/

theorem isPrefixOf_append_self (l b : List Char) : l.isPrefixOf (l ++ b) = true := by
  induction l with
  | nil => cases b <;> rfl
  | cons c l ih => simp [List.isPrefixOf, ih]

theorem pyInList_of_prefix (l h : List Char) (hp : l.isPrefixOf h = true) :
    pyInList l h = true := by
  cases h with
  | nil =>
    cases l with
    | nil => rfl
    | cons c cs => simp [List.isPrefixOf] at hp
  | cons c rest => simp [pyInList, hp]

theorem pyInList_append_middle (l : List Char) :
    ∀ (a b : List Char), pyInList l (a ++ l ++ b) = true := by
  intro a
  induction a with
  | nil =>
    intro b
    simpa using pyInList_of_prefix l (l ++ b) (isPrefixOf_append_self l b)
  | cons c a ih =>
    intro b
    have h2 := ih b
    simp only [List.append_assoc] at h2
    simp only [List.cons_append, pyInList, List.append_eq, List.append_assoc]
    rw [h2]
    simp

/-- The error message is a substring of any string it is spliced into. -/
theorem pyIn_append_middle (a m b : String) : pyIn m (a ++ m ++ b) = true := by
  have h : (a ++ m ++ b).toList = a.toList ++ m.toList ++ b.toList := by
    simp [String.toList]
  simp only [pyIn, h]
  exact pyInList_append_middle m.toList a.toList b.toList

/-- One classification step adds at most one finding to one category. -/
theorem classifyStep_sum_le (acc : Classified) (f : Result) (r : String) :
    (classifyStep acc f r).positive.length + (classifyStep acc f r).negative.length +
      (classifyStep acc f r).neutral.length ≤
    acc.positive.length + acc.negative.length + acc.neutral.length + 1 := by
  unfold classifyStep
  split
  · omega
  · split
    · simp only [List.length_append, List.length_cons, List.length_nil]
      omega
    · split
      · simp only [List.length_append, List.length_cons, List.length_nil]
        omega
      · simp only [List.length_append, List.length_cons, List.length_nil]
        omega

/-- A successful classification loop classifies at most one item per
finding it consumes. -/
theorem classifyLoop_sum_le (oracle : ClsOracle) (n : String) :
    ∀ (fs : List Result) (acc c : Classified),
      classifyLoop oracle n fs acc = .ok c →
      c.positive.length + c.negative.length + c.neutral.length ≤
        fs.length + (acc.positive.length + acc.negative.length + acc.neutral.length) := by
  intro fs
  induction fs with
  | nil =>
    intro acc c h
    simp only [classifyLoop] at h
    cases h
    omega
  | cons f rest ih =>
    intro acc c h
    simp only [classifyLoop] at h
    split at h
    · have := ih acc c h
      simp only [List.length_cons]
      omega
    · split at h
      · cases h
      · rename_i result heq
        have h1 := ih _ c h
        have h2 := classifyStep_sum_le acc f result
        simp only [List.length_cons]
        omega

/-! ### Claim theorems -/

/-- C9: for all result lists R and subject names S, `filter_relevant(R, S)`
is an order-preserving sublist of R containing exactly the items satisfying
`is_relevant(item, S)`, and filtering an already-filtered list again with
the same subject name returns the identical list. -/
theorem c9_filter_sublist_exact_idempotent (R : List Result) (S : String) :
    (filter_irrelevant_results R S).Sublist R ∧
    (∀ r, r ∈ filter_irrelevant_results R S ↔
      r ∈ R ∧ validate_result_relevance r S = true) ∧
    filter_irrelevant_results (filter_irrelevant_results R S) S =
      filter_irrelevant_results R S := by
  refine ⟨List.filter_sublist R, fun r => ?_, ?_⟩
  · simp [filter_irrelevant_results, List.mem_filter]
  · simp [filter_irrelevant_results, List.filter_filter]

/-- C6 counterexample: filtering a one-element list of results with the
empty subject name returns the list unchanged, not the empty list —
`''.split()` is `[]`, so the multi-word branch compares `0 >= 0` and admits
every non-empty result. -/
theorem c6_counterexample :
    filter_irrelevant_results [some resultC6] "" = [some resultC6] ∧
    filter_irrelevant_results [some resultC6] "" ≠ [] := by
  constructor
  · decide
  · decide

/-- C6 amended: filtering with an empty subject name keeps exactly the
non-falsy results (it never raises, and an empty result list still yields
an empty list); it does not yield an empty filtered list in general. -/
theorem c6_amended (R : List Result) :
    filter_irrelevant_results R "" = R.filter (fun r => r.isSome) ∧
    filter_irrelevant_results ([] : List Result) "" = [] := by
  constructor
  · have hrel : ∀ r : Result, validate_result_relevance r "" = r.isSome := by
      intro r
      cases r with
      | none => rfl
      | some x => rfl
    simp only [filter_irrelevant_results]
    exact List.filter_congr (fun r _ => hrel r)
  · rfl

/-- C2: evaluation of `validate_company_name` at the claim's inputs.
"Acme Inc" — exactly two capitalized words whose last word carries the
recognized suffix "inc" — is nevertheless rejected, with error type
`personal_name`: the FirstName-LastName regex is searched with
`re.IGNORECASE`, so it matches any two alphabetic words and fires before
the company-suffix branch can run.  "John Smith" and "Robert Johnson" are
rejected by the same pattern (and not by the `possible_personal_name`
suffix branch the claim describes). -/
theorem c2_code_evaluation :
    validate_company_name "Acme Inc" = (false, "personal_name") ∧
    (COMPANY_SUFFIXES.any fun suffix =>
      pyIn suffix (rstripDot (toLowerStr "Inc"))) = true ∧
    validate_company_name "John Smith" = (false, "personal_name") ∧
    validate_company_name "Robert Johnson" = (false, "personal_name") := by
  refine ⟨by decide, by decide, by decide, by decide⟩

/-- C1 counterexample: when the completion provider raises during the
risk-analysis stage, the returned state has `risk_analysis.processed ==
True` (not `False` as claimed): `call_gpt4` catches the error and returns
it as the string `"Error: boom"`, so the stage's `except` branch never
runs. -/
theorem c1_counterexample :
    (analyze_risks_node oracleFail stateC1).risk_analysis.processed = some true ∧
    (analyze_risks_node oracleFail stateC1).risk_analysis.processed ≠ some false := by
  constructor
  · decide
  · decide

/-- C1 amended: if the risk-analysis completion call raises a provider
error, `analyze_risks` still returns a VettingState with `current_step ==
"risks_analyzed"`, but with `risk_analysis.processed == true` and the error
embedded as the analysis narrative `"Error: <e>"`; the pipeline still
proceeds to the question-answering stage, whose prompt context is that
error narrative (not the `"No analysis available"` placeholder, which is
used only when the `analysis` key is absent). -/
theorem c1_amended (oracle : Oracle) (e : String) (s : VettingState)
    (h : ∀ sys user, oracle sys user = .error e) :
    (analyze_risks_node oracle s).risk_analysis.processed = some true ∧
    (analyze_risks_node oracle s).risk_analysis.analysis = some ("Error: " ++ e) ∧
    (analyze_risks_node oracle s).current_step = "risks_analyzed" ∧
    questions_risk_context (analyze_risks_node oracle s) = "Error: " ++ e ∧
    (answer_pg_questions_node oracle (analyze_risks_node oracle s)).current_step =
      "questions_answered" ∧
    (answer_pg_questions_node oracle
      (analyze_risks_node oracle s)).pg_questions_answered.processed = some true := by
  refine ⟨?_, ?_, rfl, ?_, rfl, ?_⟩ <;>
    simp [analyze_risks_node, answer_pg_questions_node, call_gpt4, h,
      questions_risk_context]

/-- C1 witness: the amended statement at the concrete failing oracle and
state, together with the fact that the narrative fed forward is not the
placeholder. -/
theorem c1_witness :
    ((analyze_risks_node oracleFail stateC1).risk_analysis.analysis =
      some ("Error: " ++ "boom") ∧
     questions_risk_context (analyze_risks_node oracleFail stateC1) =
      "Error: " ++ "boom") ∧
    questions_risk_context (analyze_risks_node oracleFail stateC1) ≠
      "No analysis available" := by
  refine ⟨?_, by decide⟩
  have h := c1_amended oracleFail "boom" stateC1 (fun _ _ => rfl)
  exact ⟨h.2.1, h.2.2.2.1⟩

/-- C3 counterexample: invoking `run_vetting_analysis` with the completion
credential missing does not return an error-state VettingState — it raises
`ValueError("OPENAI_API_KEY not found in environment variables")`
(modelled as `Except.error`), so no result object exists for this
invocation. -/
theorem c3_counterexample :
    run_vetting_analysis false none oracleOk "zeta" rdFive =
      .error "OPENAI_API_KEY not found in environment variables" := by
  rfl

/-- C3 amended: with the required completion credential missing,
`run_vetting_analysis` raises a ValueError instead of returning; the
top-level error-state VettingState — error message embedded in the final
report's summary, `current_step == "error"`, `processed == false` — is
produced only when the workflow invocation itself fails after the
credential and data checks pass. -/
theorem c3_amended (oe : Option String) (oracle : Oracle) (c : String)
    (r : RawData) (e : String) (hdata : r.data_found = true)
    (htot : 3 ≤ r.total_results) :
    run_vetting_analysis false oe oracle c r =
      .error "OPENAI_API_KEY not found in environment variables" ∧
    (run_vetting_analysis true (some e) oracle c r).map VettingState.current_step =
      .ok "error" ∧
    (run_vetting_analysis true (some e) oracle c r).map
      (fun s => s.final_report.processed) = .ok (some false) ∧
    (run_vetting_analysis true (some e) oracle c r).map
      (fun s => pyIn e (s.final_report.executive_summary.getD "")) = .ok true := by
  have h3 : ¬ r.total_results < 3 := Nat.not_lt.mpr htot
  refine ⟨rfl, ?_, ?_, ?_⟩ <;>
    simp [run_vetting_analysis, hdata, h3, workflowErrorReport, Except.map,
      pyIn_append_middle]

/-- C3 witness: the amended statement at a concrete bundle with sufficient
data and a concrete orchestration failure. -/
theorem c3_witness :
    run_vetting_analysis false none oracleOk "zeta" rdFive =
      .error "OPENAI_API_KEY not found in environment variables" ∧
    (run_vetting_analysis true (some "GraphRecursionError") oracleOk "zeta"
      rdFive).map VettingState.current_step = .ok "error" ∧
    (run_vetting_analysis true (some "GraphRecursionError") oracleOk "zeta"
      rdFive).map (fun s => s.final_report.processed) = .ok (some false) ∧
    (run_vetting_analysis true (some "GraphRecursionError") oracleOk "zeta"
      rdFive).map
      (fun s => pyIn "GraphRecursionError"
        (s.final_report.executive_summary.getD "")) = .ok true := by
  have h := c3_amended none oracleOk "zeta" rdFive "GraphRecursionError"
    (by decide) (by decide)
  exact ⟨h.1, h.2.1, h.2.2.1, h.2.2.2⟩

/-- C4: for every raw-data bundle with `total_results == 2` (and the
completion credential configured), `run_vetting_analysis` takes the
insufficient-data short-circuit: the result does not depend on the
completion oracle or the orchestration outcome at all (no completion call
is issued), and it is the limited-report VettingState with `current_step ==
"insufficient_data"` and `final_report.processed == true`. -/
theorem c4_insufficient_shortcircuit (o1 o2 : Oracle) (oe1 oe2 : Option String)
    (c : String) (r : RawData) (h : r.total_results = 2) :
    run_vetting_analysis true oe1 o1 c r = run_vetting_analysis true oe2 o2 c r ∧
    run_vetting_analysis true oe1 o1 c r = .ok (insufficientState c r) ∧
    (insufficientState c r).current_step = "insufficient_data" ∧
    (insufficientState c r).final_report.processed = some true := by
  refine ⟨?_, ?_, rfl, rfl⟩ <;> simp [run_vetting_analysis, h]

/-- C4 witness: the short-circuit at a concrete two-result bundle, under
two different completion oracles and orchestration outcomes. -/
theorem c4_witness :
    run_vetting_analysis true none oracleOk "zeta" rdTwo =
      run_vetting_analysis true (some "down") oracleFail "zeta" rdTwo ∧
    run_vetting_analysis true none oracleOk "zeta" rdTwo =
      .ok (insufficientState "zeta" rdTwo) ∧
    (insufficientState "zeta" rdTwo).current_step = "insufficient_data" ∧
    (insufficientState "zeta" rdTwo).final_report.processed = some true :=
  c4_insufficient_shortcircuit oracleOk oracleFail none (some "down") "zeta"
    rdTwo (by decide)

/-- C10: whenever `run_vetting_analysis` takes the insufficient-data
short-circuit (the credential present and `not data_found or
total_results < 3`), the returned state has `risk_analysis.processed ==
true` but `pg_questions_answered.processed == false` — an asymmetry baked
into the limited-report literal, not caused by any provider failure — and
`final_report.data_sources_checked` equals the raw bundle's
`total_results`. -/
theorem c10_insufficient_asymmetry (oe : Option String) (oracle : Oracle)
    (c : String) (r : RawData)
    (h : r.data_found = false ∨ r.total_results < 3) :
    run_vetting_analysis true oe oracle c r = .ok (insufficientState c r) ∧
    (insufficientState c r).risk_analysis.processed = some true ∧
    (insufficientState c r).pg_questions_answered.processed = some false ∧
    (insufficientState c r).final_report.data_sources_checked =
      some r.total_results := by
  refine ⟨?_, rfl, rfl, rfl⟩
  rcases h with h | h <;> simp [run_vetting_analysis, h]

/-- C10 witness: the asymmetry at the concrete two-result bundle. -/
theorem c10_witness :
    run_vetting_analysis true none oracleOk "zeta" rdTwo =
      .ok (insufficientState "zeta" rdTwo) ∧
    (insufficientState "zeta" rdTwo).risk_analysis.processed = some true ∧
    (insufficientState "zeta" rdTwo).pg_questions_answered.processed = some false ∧
    (insufficientState "zeta" rdTwo).final_report.data_sources_checked =
      some rdTwo.total_results :=
  c10_insufficient_asymmetry none oracleOk "zeta" rdTwo (Or.inr (by decide))

/-- C7 counterexample: a legal/regulatory result whose content matches none
of the six risk keywords is still admitted into the negative-indicator
digest — legal items are appended unconditionally, so admission is not
"exactly when the result matches the fixed keyword set". -/
theorem c7_counterexample :
    negativeContent rdLegalC7 = ["LEGAL: Annual report - routine compliance filing"] ∧
    (riskKeywords.all fun keyword =>
      !pyIn keyword (toLowerStr legalItemC7.content)) = true := by
  constructor
  · decide
  · decide

/-- C7 amended: `analyze_risks` admits a news result into the digest
exactly when its lowercased *content* matches the fixed keyword set
{scandal, lawsuit, fraud, violation, controversy, investigation}, but
admits every legal/regulatory result unconditionally; the prompt digest
text joins only the first 15 entries, while `negative_items_found` is
stored as the uncapped count of all entries collected. -/
theorem c7_amended (oracle : Oracle) (s : VettingState) (e : String) :
    (e ∈ negativeContent s.raw_data ↔
      (∃ item ∈ s.raw_data.comprehensive_search.news_search,
        newsIsNegative item = true ∧ newsNegEntry item = e) ∨
      (∃ item ∈ s.raw_data.comprehensive_search.legal_regulatory,
        legalNegEntry item = e)) ∧
    (analyze_risks_node oracle s).risk_analysis.negative_items_found =
      some (negativeContent s.raw_data).length ∧
    riskNegativeText s.raw_data =
      String.intercalate "\n\n" ((negativeContent s.raw_data).take 15) := by
  refine ⟨?_, rfl, rfl⟩
  simp [negativeContent, List.mem_append, List.mem_map, List.mem_filter,
    and_assoc]

/-- C5 counterexample: an executive dossier produced by the background
check in a run where the single relevant finding is flagged as not about
the person: `total_findings == 1` while the three category counts sum to 0,
so the claimed invariant `total == positive+negative+neutral` fails. -/
theorem c5_counterexample :
    (search_executive_background true clsNotPerson "xavier" "zeta"
      (.ok [some findingC5]) (.ok []) (.ok [])).summary.total_findings = 1 ∧
    (search_executive_background true clsNotPerson "xavier" "zeta"
      (.ok [some findingC5]) (.ok []) (.ok [])).summary.positive_count +
    (search_executive_background true clsNotPerson "xavier" "zeta"
      (.ok [some findingC5]) (.ok []) (.ok [])).summary.negative_count +
    (search_executive_background true clsNotPerson "xavier" "zeta"
      (.ok [some findingC5]) (.ok []) (.ok [])).summary.neutral_count = 0 := by
  constructor
  · decide
  · decide

/-- C5 amended: in every dossier the background check produces, each
category list's length equals its count and `total_findings` equals the
length of the retained relevant findings, but the three counts only sum to
*at most* `total_findings` — findings flagged not-about-the-person (as well
as empty findings and findings beyond the first 10) are counted in the
total yet appear in no category. -/
theorem c5_amended (openaiKey : Bool) (oracle : ClsOracle)
    (executive_name company_name : String) (g s l : SearchOutcome) :
    (search_executive_background openaiKey oracle executive_name company_name
      g s l).summary.positive_count =
      (search_executive_background openaiKey oracle executive_name company_name
        g s l).positive.length ∧
    (search_executive_background openaiKey oracle executive_name company_name
      g s l).summary.negative_count =
      (search_executive_background openaiKey oracle executive_name company_name
        g s l).negative.length ∧
    (search_executive_background openaiKey oracle executive_name company_name
      g s l).summary.neutral_count =
      (search_executive_background openaiKey oracle executive_name company_name
        g s l).neutral.length ∧
    (search_executive_background openaiKey oracle executive_name company_name
      g s l).summary.total_findings =
      (search_executive_background openaiKey oracle executive_name company_name
        g s l).all_findings.length ∧
    (search_executive_background openaiKey oracle executive_name company_name
      g s l).summary.positive_count +
    (search_executive_background openaiKey oracle executive_name company_name
      g s l).summary.negative_count +
    (search_executive_background openaiKey oracle executive_name company_name
      g s l).summary.neutral_count ≤
    (search_executive_background openaiKey oracle executive_name company_name
      g s l).summary.total_findings := by
  rcases g with eg | gr
  · exact ⟨rfl, rfl, rfl, rfl, by simp [search_executive_background, initialExecData]⟩
  rcases s with es | sr
  · exact ⟨rfl, rfl, rfl, rfl, by simp [search_executive_background, initialExecData]⟩
  rcases l with el | lr
  · exact ⟨rfl, rfl, rfl, rfl, by simp [search_executive_background, initialExecData]⟩
  refine ⟨rfl, rfl, rfl, rfl, ?_⟩
  simp only [search_executive_background]
  set relevant := filter_irrelevant_results (gr ++ sr ++ lr) executive_name with hrel
  simp only [classify_executive_information]
  split
  · simp
  · rename_i hcond
    split
    · rename_i classified hloop
      have h1 := classifyLoop_sum_le oracle executive_name (relevant.take 10)
        {} classified hloop
      have h2 : (relevant.take 10).length ≤ relevant.length := by
        simp [List.length_take]
      simp only [Classified] at h1
      simp at h1
      omega
    · simp

/-- C8 counterexample: a provider combination in which every counted search
comes back empty but the executive-discovery chain retains one classified
finding.  The built bundle has `total_result_count == 0` (and `has_any_data
== false`) while the sum of the lengths of all contained result lists is 1
— the executive-dossier lists are not included in the total, refuting the
claimed invariant. -/
theorem c8_counterexample :
    (aggregate_all_data true true tavC8 (.ok ["xavier"]) clsYesPositive "zeta").map
      (fun r => (r.total_results, allContainedResultCount r, r.data_found)) =
    .ok (0, 1, false) := by
  rfl

/-- C8 amended: for every combination of provider responses (including
all-empty), the bundle built by `aggregate_all_data` satisfies
`total_result_count == the sum of the five counted bucket lists after
filtering` (general + news + legal + recent news + the per-platform social
lists — the executive-dossier lists and the comprehensive dict's inner
social list are excluded from the total) and `has_any_data ==
(total_result_count > 0)`. -/
theorem c8_amended (openaiKey : Bool) (t : TavilyOutcomes)
    (parsedNames : Except String (List String)) (oracle : ClsOracle)
    (company_name : String) :
    ∃ r : RawData,
      aggregate_all_data true openaiKey t parsedNames oracle company_name = .ok r ∧
      r.total_results = countedBuckets r ∧
      r.data_found = decide (0 < r.total_results) := by
  exact ⟨_, rfl, rfl, rfl⟩

end Vetting
